import Mathlib

/-!
Verification development for the `telegram_stocksignals` repository.

The source is Python (pandas/numpy).  We embed it shallowly:

* prices and indicator values are rationals (`ℚ`);
* a pandas value that may be NaN (a not-yet-defined rolling statistic,
  a `diff` at position 0, a division whose denominator is zero) is
  modelled as `Option ℚ` with `none` playing the role of NaN — Python
  comparisons against NaN are `False`, which the `f*` comparison
  helpers below reproduce by returning `false` whenever either side is
  `none`;
* a bar frame is a `List Bar` ordered ascending by open time;
* the mutable trade ledger (`trade_tracker.py`) is a `List Trade`
  transformed functionally.

File layout: data model and Python-derived definitions first, then the
theorems about them.
-/

namespace StockSignals

/-- One OHLCV candle, a row of the frames produced by `get_klines`
(`crypto_signal_bot.py` lines 63-86, `stock_signal_bot.py` lines 69-95).
The open-time column only orders the rows and is omitted; `openPrice`
is the `Open` column (`open` is a Lean keyword). -/
structure Bar where
  openPrice : ℚ
  high : ℚ
  low : ℚ
  close : ℚ
  volume : ℚ
  deriving Repr, DecidableEq, Inhabited

/-- A possibly-NaN float: `none` models pandas NaN. -/
abbrev F := Option ℚ

/-- Comparison `a < b` on possibly-NaN values; any comparison involving NaN is
`False` in Python. -/
def fltF (a b : F) : Bool :=
  match a, b with
  | some a, some b => decide (a < b)
  | _, _ => false

/-- Comparison `a > b` on possibly-NaN values. -/
def fgtF (a b : F) : Bool :=
  match a, b with
  | some a, some b => decide (b < a)
  | _, _ => false

/-- Comparison `a ≥ b` on possibly-NaN values. -/
def fgeF (a b : F) : Bool :=
  match a, b with
  | some a, some b => decide (b ≤ a)
  | _, _ => false

/-- Float division.  A zero denominator yields a non-number in the
model (Python float division by zero gives `inf`/`nan`; both are
collapsed to `none` here — no claim depends on the distinction). -/
def fdiv (a b : F) : F :=
  match a, b with
  | some a, some b => if b = 0 then none else some (a / b)
  | _, _ => none

/-! ## IndicatorEngine

The per-series indicator computations shared verbatim by
`crypto_signal_bot.py` (lines 96-142) and `stock_signal_bot.py`
(lines 100-136). -/

/-- Pandas `Series.ewm(span, adjust=False).mean()` on a NaN-free series:
`y₀ = x₀`, `yₜ = α·xₜ + (1-α)·yₜ₋₁` with `α = 2/(span+1)`. -/
def ewmAdjFalseAux (α prev : ℚ) : List ℚ → List ℚ
  | [] => []
  | x :: xs =>
      let y := α * x + (1 - α) * prev
      y :: ewmAdjFalseAux α y xs

def ewmAdjFalse (α : ℚ) : List ℚ → List ℚ
  | [] => []
  | x :: xs => x :: ewmAdjFalseAux α x xs

/-- The `calculate_ema(df, period)` method: EMA of the close column with
span-derived smoothing factor. -/
def calculate_ema (closes : List ℚ) (period : ℚ) : List ℚ :=
  ewmAdjFalse (2 / (period + 1)) closes

/-- Pandas `Series.diff()`: first element NaN, then successive differences. -/
def diffs (l : List ℚ) : List F :=
  (List.range l.length).map fun i =>
    if i = 0 then none else some (l.getD i 0 - l.getD (i - 1) 0)

/-- Pandas `Series.rolling(window=n).mean()` on a NaN-free series: NaN until a
full window of `n` observations is available. -/
def rollingMeanQ (n : Nat) (l : List ℚ) : List F :=
  (List.range l.length).map fun i =>
    if i + 1 < n then none
    else some (((l.drop (i + 1 - n)).take n).sum / n)

/-- Pandas `Series.ewm(alpha=α).mean()` (default `adjust=True`,
`ignore_na=False`): the output at position `t` is the
`(1-α)^(t-i)`-weighted mean of the valid observations at positions
`i ≤ t`, NaN while no valid observation has been seen. -/
def ewmAdjTrue (α : ℚ) (l : List F) : List F :=
  (List.range l.length).map fun t =>
    let obs := (List.range (t + 1)).filterMap fun i =>
      (l.getD i none).map fun x => ((1 - α) ^ (t - i), x)
    if obs.isEmpty then none
    else some ((obs.map fun p => p.1 * p.2).sum / (obs.map Prod.fst).sum)

/-- The `calculate_macd` method: `(macdLine, signalLine, histogram)` with fast=12,
slow=26, signal=9. -/
def calculate_macd (closes : List ℚ) : List ℚ × List ℚ × List ℚ :=
  let ema_fast := ewmAdjFalse (2 / 13) closes
  let ema_slow := ewmAdjFalse (2 / 27) closes
  let macd_line := ema_fast.zipWith (· - ·) ema_slow
  let signal_line := ewmAdjFalse (2 / 10) macd_line
  let histogram := macd_line.zipWith (· - ·) signal_line
  (macd_line, signal_line, histogram)

/-- The per-row true range.  `pd.concat(...).max(axis=1)` skips NaN, so
at row 0 (where `Close.shift()` is NaN) only `high - low` survives. -/
def trueRanges (bars : List Bar) : List ℚ :=
  (List.range bars.length).map fun i =>
    let b := bars.getD i default
    if i = 0 then b.high - b.low
    else
      let pc := (bars.getD (i - 1) default).close
      max (b.high - b.low) (max |b.high - pc| |b.low - pc|)

/-- The `calculate_atr(df, 14)` method: 14-bar simple rolling mean of the true
range (NaN for the first 13 rows). -/
def calculate_atr (bars : List Bar) : List F :=
  rollingMeanQ 14 (trueRanges bars)

/-- The `calculate_adx(df, 14)` method: directional movement smoothed with
`ewm(alpha=1/14)` divided by the ATR, then the smoothed DX. -/
def calculate_adx (bars : List Bar) : List F :=
  let highs := bars.map Bar.high
  let lows := bars.map Bar.low
  let plus_dm : List F := (diffs highs).map fun d => d.map fun x => max x 0
  let minus_dm : List F := (diffs lows).map fun d => d.map fun x => max (-x) 0
  let tr := calculate_atr bars
  let plus_di := (ewmAdjTrue (1 / 14) plus_dm).zipWith
    (fun a b => (fdiv a b).map (100 * ·)) tr
  let minus_di := (ewmAdjTrue (1 / 14) minus_dm).zipWith
    (fun a b => (fdiv a b).map (100 * ·)) tr
  let dx := plus_di.zipWith (fun p m =>
    (fdiv ((p.bind fun a => m.map fun b => |a - b|))
        ((p.bind fun a => m.map fun b => a + b))).map fun x => |x| * 100) minus_di
  ewmAdjTrue (1 / 14) dx

/-- The `calculate_rsi(df, 14)` method.  `delta.where(delta > 0, 0)` maps the NaN
at position 0 to 0 (a NaN comparison is `False`), so gains and losses
are NaN-free; the rolling means are NaN for the first 13 rows.  When
the average loss is zero the Python ratio is `inf` (or `0/0 = NaN`);
both cases are modelled as an undefined RSI (`none`). -/
def calculate_rsi (closes : List ℚ) : List F :=
  let delta := diffs closes
  let gain : List ℚ := delta.map fun d =>
    match d with
    | some x => if 0 < x then x else 0
    | none => 0
  let loss : List ℚ := delta.map fun d =>
    match d with
    | some x => if x < 0 then -x else 0
    | none => 0
  let avg_gain := rollingMeanQ 14 gain
  let avg_loss := rollingMeanQ 14 loss
  (avg_gain.zipWith fdiv avg_loss).map fun rs =>
    rs.map fun r => 100 - 100 / (1 + r)

/-! ## SupportResistanceLocator

`find_support_resistance` — `crypto_signal_bot.py` lines 144-169 and
(same algorithm row-by-row) `stock_signal_bot.py` lines 138-156. -/

/-- Low value of row `i` of a frame (rows are guarded in range where
this is used). -/
def lowAt (bars : List Bar) (i : Nat) : ℚ := (bars.getD i default).low

def highAt (bars : List Bar) (i : Nat) : ℚ := (bars.getD i default).high

/-- The pivot lows of a frame: rows `1 .. len-2` whose low is strictly
below both neighbours' lows, in row order. -/
def pivotLows (recent : List Bar) : List ℚ :=
  (List.range recent.length).filterMap fun i =>
    if 1 ≤ i ∧ i + 1 < recent.length then
      if lowAt recent i < lowAt recent (i - 1) ∧
          lowAt recent i < lowAt recent (i + 1) then
        some (lowAt recent i)
      else none
    else none

/-- The pivot highs of a frame, symmetric on highs. -/
def pivotHighs (recent : List Bar) : List ℚ :=
  (List.range recent.length).filterMap fun i =>
    if 1 ≤ i ∧ i + 1 < recent.length then
      if highAt recent (i - 1) < highAt recent i ∧
          highAt recent (i + 1) < highAt recent i then
        some (highAt recent i)
      else none
    else none

/-- Minimum of a list of rationals (`Series.min()` on a nonempty
NaN-free column). -/
def listMin : List ℚ → Option ℚ
  | [] => none
  | x :: xs =>
      match listMin xs with
      | none => some x
      | some m => some (min x m)

def listMax : List ℚ → Option ℚ
  | [] => none
  | x :: xs =>
      match listMax xs with
      | none => some x
      | some m => some (max x m)

/-- The `find_support_resistance(df, window)` method: pivots are searched in
`df.tail(window)`; with no pivot the fallback is the extremum of the
WHOLE frame's column (`df["Low"].min()` / `df["High"].max()` — not the
window's).  Returns `(nearest_support, nearest_resistance)`. -/
def find_support_resistance (df : List Bar) (window : Nat) : ℚ × ℚ :=
  let recent := df.drop (df.length - window)
  let supports := pivotLows recent
  let resistances := pivotHighs recent
  let nearest_support :=
    match listMax supports with
    | some m => m
    | none => (listMin (df.map Bar.low)).getD 0
  let nearest_resistance :=
    match listMin resistances with
    | some m => m
    | none => (listMax (df.map Bar.high)).getD 0
  (nearest_support, nearest_resistance)

/-! ## RiskRewardCalculator

The stop/target block of `analyze_pair` — `crypto_signal_bot.py`
lines 233-248, identical in `stock_signal_bot.py` lines 199-211.
`atr` may be NaN there; since `NaN > 0` is `False` exactly like
`0 > 0`, a NaN ATR is passed to these functions as `0`. -/

def stop_by_atr (entry atr support : ℚ) : ℚ :=
  if 0 < atr then entry - 3/2 * atr else support * (99 / 100)

def stop_loss_level (entry atr support : ℚ) : ℚ :=
  let s := min (stop_by_atr entry atr support) (support * (99 / 100))
  if s ≤ 0 ∨ entry ≤ s then entry * (98 / 100) else s

def tp1_level (entry atr resistance : ℚ) : ℚ :=
  if 0 < atr then entry + 2 * atr else resistance * (98 / 100)

def tp2_level (entry atr resistance : ℚ) : ℚ :=
  if 0 < atr then entry + 3 * atr else resistance

/-! ## ScoringEngine

The confidence block of `analyze_pair` — `crypto_signal_bot.py`
lines 250-279 and 316-318, identical in `stock_signal_bot.py`
lines 212-240 and 273-275. -/

/-- The inputs the scoring block reads.  `rsi`, `volume_increase` and
`adx` may be NaN; `ratio_tp1` is always an ordinary number (the
`risk > 0` guard returns 0 otherwise). -/
structure ScoreInputs where
  in_uptrend : Bool
  ema_order : Bool
  macd_positive : Bool
  macd_crossover : Bool
  rsi_gaining : Bool
  testing_support : Bool
  rsi : F
  volume_increase : F
  adx : F
  ratio_tp1 : ℚ
  deriving Repr, DecidableEq

/-- Condition `30 < rsi < 80` (False on NaN), `rsi_healthy` in the crypto bot and
inlined in the stock bot. -/
def rsiHealthy (rsi : F) : Bool :=
  fltF (some 30) rsi && fltF rsi (some 80)

/-- The sequential `confidence_score` accumulation, written as the sum
of its independent increments (the `adx` branch is the one
`if/elif`). -/
def confidence_score (s : ScoreInputs) : ℤ :=
  (if s.in_uptrend then 20 else 0)
  + (if s.ema_order then 15 else 0)
  + (if s.macd_positive then 15 else 0)
  + (if s.macd_crossover then 10 else 0)
  + (if rsiHealthy s.rsi then 10 else 0)
  + (if s.rsi_gaining then 10 else 0)
  + (if s.testing_support then 10 else 0)
  + (if fgtF s.volume_increase (some 30) then 5 else 0)
  + (if fltF s.volume_increase (some (-30)) then -5 else 0)
  + (if fgeF s.adx (some 25) then 10
     else if fltF s.adx (some 15) then -5 else 0)
  + (if (1 : ℚ) ≤ s.ratio_tp1 then 5 else 0)

inductive Strength where
  | FORTE
  | MODERADO
  | FRACO
  deriving Repr, DecidableEq

/-- Label `signal_strength`: FORTE at 75, MODERADO at 60, else FRACO. -/
def signal_strength_of (c : ℤ) : Strength :=
  if 75 ≤ c then .FORTE else if 60 ≤ c then .MODERADO else .FRACO

/-- Decision `should_alert = confidence_score >= 70 and ratio_tp1 >= 1.0 and
in_uptrend`. -/
def should_alert (s : ScoreInputs) : Bool :=
  decide (70 ≤ confidence_score s) && decide ((1 : ℚ) ≤ s.ratio_tp1)
    && s.in_uptrend

/-! ## Per-instrument analysis

`analyze_pair` — `crypto_signal_bot.py` lines 180-319 and
`stock_signal_bot.py` lines 166-276.  The `get_klines` network fetch is
an external collaborator; its result (the bar frame) is the function's
input here. -/

/-- The dict returned by the crypto `analyze_pair`
(`crypto_signal_bot.py` lines 281-319). -/
structure CAnalysis where
  symbol : String
  timeframe : String
  price : ℚ
  ema200 : ℚ
  ema50 : ℚ
  ema20 : ℚ
  macd : ℚ
  signal_line : ℚ
  rsi : F
  support : ℚ
  resistance : ℚ
  volume_increase : F
  atr : F
  adx : F
  in_uptrend : Bool
  ema_order : Bool
  macd_positive : Bool
  macd_crossover : Bool
  rsi_healthy : Bool
  rsi_oversold : Bool
  rsi_gaining : Bool
  testing_support : Bool
  entry : ℚ
  stop_loss : ℚ
  tp1 : ℚ
  tp2 : ℚ
  risk : ℚ
  reward_tp1 : ℚ
  reward_tp2 : ℚ
  ratio_tp1 : ℚ
  ratio_tp2 : ℚ
  confidence : ℤ
  signal_strength : Strength
  should_alert : Bool

/-- The body of the crypto `analyze_pair` after the emptiness guard
(`crypto_signal_bot.py` lines 193-319).  `current`/`previous` are
`iloc[-1]`/`iloc[-2]` and the RSI lookback is `iloc[-5]`; the source
raises an IndexError on a non-empty frame of fewer than 5 rows, so
this model is faithful for frames of length 0 or ≥ 5.  The NaN-valued
ATR of a short frame enters the stop/target formulas only through
`atr > 0`, which is `False` exactly as it is for `atr = 0`, so the
risk/reward helpers receive `atr.getD 0`. -/
def cryptoCompute (symbol : String) (interval : String) (bars : List Bar) :
    CAnalysis :=
  let n := bars.length
  let closes := bars.map Bar.close
  let ema20 := calculate_ema closes 20
  let ema50 := calculate_ema closes 50
  let ema200 := calculate_ema closes 200
  let m := calculate_macd closes
  let macd_line := m.1
  let signal_line := m.2.1
  let rsiList := calculate_rsi closes
  let atrList := calculate_atr bars
  let adxList := calculate_adx bars
  let closeCur := closes.getD (n - 1) 0
  let lowCur := (bars.getD (n - 1) default).low
  let sr := find_support_resistance bars 30
  let support := sr.1
  let resistance := sr.2
  let vols := bars.map Bar.volume
  let tail20 := vols.drop (vols.length - 20)
  let avg_volume : F :=
    if tail20.isEmpty then none else some (tail20.sum / tail20.length)
  let current_volume := (bars.getD (n - 1) default).volume
  let volume_increase : F :=
    (fdiv (some current_volume) avg_volume).map fun x => (x - 1) * 100
  let in_uptrend := decide (ema200.getD (n - 1) 0 < closeCur)
  let ema_order := decide (ema50.getD (n - 1) 0 < ema20.getD (n - 1) 0)
    && decide (ema200.getD (n - 1) 0 < ema50.getD (n - 1) 0)
  let macd_positive :=
    decide (signal_line.getD (n - 1) 0 < macd_line.getD (n - 1) 0)
  let macd_crossover :=
    decide (macd_line.getD (n - 2) 0 < signal_line.getD (n - 2) 0)
      && macd_positive
  let rsi_cur := rsiList.getD (n - 1) none
  let rsi_gaining := fgtF rsi_cur (rsiList.getD (n - 5) none)
  let testing_support := decide (lowCur ≤ support * (1005 / 1000))
    && decide (support < closeCur)
  let entry := closeCur
  let atr := atrList.getD (n - 1) none
  let atrq := atr.getD 0
  let stop_loss := stop_loss_level entry atrq support
  let tp1 := tp1_level entry atrq resistance
  let tp2 := tp2_level entry atrq resistance
  let risk := entry - stop_loss
  let reward_tp1 := tp1 - entry
  let reward_tp2 := tp2 - entry
  let ratio_tp1 := if 0 < risk then reward_tp1 / risk else 0
  let ratio_tp2 := if 0 < risk then reward_tp2 / risk else 0
  let adx := adxList.getD (n - 1) none
  let inp : ScoreInputs :=
    { in_uptrend := in_uptrend
      ema_order := ema_order
      macd_positive := macd_positive
      macd_crossover := macd_crossover
      rsi_gaining := rsi_gaining
      testing_support := testing_support
      rsi := rsi_cur
      volume_increase := volume_increase
      adx := adx
      ratio_tp1 := ratio_tp1 }
  { symbol := symbol
    timeframe := interval
    price := closeCur
    ema200 := ema200.getD (n - 1) 0
    ema50 := ema50.getD (n - 1) 0
    ema20 := ema20.getD (n - 1) 0
    macd := macd_line.getD (n - 1) 0
    signal_line := signal_line.getD (n - 1) 0
    rsi := rsi_cur
    support := support
    resistance := resistance
    volume_increase := volume_increase
    atr := atr
    adx := adx
    in_uptrend := in_uptrend
    ema_order := ema_order
    macd_positive := macd_positive
    macd_crossover := macd_crossover
    rsi_healthy := rsiHealthy rsi_cur
    rsi_oversold := fltF rsi_cur (some 30)
    rsi_gaining := rsi_gaining
    testing_support := testing_support
    entry := entry
    stop_loss := stop_loss
    tp1 := tp1
    tp2 := tp2
    risk := risk
    reward_tp1 := reward_tp1
    reward_tp2 := reward_tp2
    ratio_tp1 := ratio_tp1
    ratio_tp2 := ratio_tp2
    confidence := confidence_score inp
    signal_strength := signal_strength_of (confidence_score inp)
    should_alert := should_alert inp }

/-- The crypto `analyze_pair` (`crypto_signal_bot.py` lines 180-191):
the ONLY unavailable-data guard is `if df_1d.empty: return None` —
there is no minimum-length check in this variant. -/
def cryptoAnalyze (symbol : String) (interval : String) (bars : List Bar) :
    Option CAnalysis :=
  if bars.isEmpty then none else some (cryptoCompute symbol interval bars)

/-- The dict returned by the stock `analyze_pair`
(`stock_signal_bot.py` lines 242-276); it has no `rsi_healthy` key and
its `volume_increase` is an ordinary number thanks to the
`avg_volume` guard. -/
structure SAnalysis where
  symbol : String
  timeframe : String
  price : ℚ
  ema200 : ℚ
  ema50 : ℚ
  ema20 : ℚ
  macd : ℚ
  signal_line : ℚ
  rsi : F
  support : ℚ
  resistance : ℚ
  volume_increase : ℚ
  atr : F
  adx : F
  in_uptrend : Bool
  ema_order : Bool
  macd_positive : Bool
  macd_crossover : Bool
  rsi_oversold : Bool
  rsi_gaining : Bool
  testing_support : Bool
  entry : ℚ
  stop_loss : ℚ
  tp1 : ℚ
  tp2 : ℚ
  risk : ℚ
  reward_tp1 : ℚ
  reward_tp2 : ℚ
  ratio_tp1 : ℚ
  ratio_tp2 : ℚ
  confidence : ℤ
  signal_strength : Strength
  should_alert : Bool

/-- The body of the stock `analyze_pair` after the length guard
(`stock_signal_bot.py` lines 171-276).  It differs from the crypto
body only in the volume-average NaN/zero guards; the guard admits only
frames of length ≥ 30, where every `iloc` is in range. -/
def stockCompute (ticker : String) (interval : String) (bars : List Bar) :
    SAnalysis :=
  let n := bars.length
  let closes := bars.map Bar.close
  let ema20 := calculate_ema closes 20
  let ema50 := calculate_ema closes 50
  let ema200 := calculate_ema closes 200
  let m := calculate_macd closes
  let macd_line := m.1
  let signal_line := m.2.1
  let rsiList := calculate_rsi closes
  let atrList := calculate_atr bars
  let adxList := calculate_adx bars
  let closeCur := closes.getD (n - 1) 0
  let lowCur := (bars.getD (n - 1) default).low
  let sr := find_support_resistance bars 30
  let support := sr.1
  let resistance := sr.2
  let vols := bars.map Bar.volume
  let tail20 := vols.drop (vols.length - 20)
  let avg_volume : ℚ :=
    if tail20.isEmpty then 0 else tail20.sum / tail20.length
  let current_volume := (bars.getD (n - 1) default).volume
  let volume_increase : ℚ :=
    if avg_volume ≠ 0 then (current_volume / avg_volume - 1) * 100 else 0
  let in_uptrend := decide (ema200.getD (n - 1) 0 < closeCur)
  let ema_order := decide (ema50.getD (n - 1) 0 < ema20.getD (n - 1) 0)
    && decide (ema200.getD (n - 1) 0 < ema50.getD (n - 1) 0)
  let macd_positive :=
    decide (signal_line.getD (n - 1) 0 < macd_line.getD (n - 1) 0)
  let macd_crossover :=
    decide (macd_line.getD (n - 2) 0 < signal_line.getD (n - 2) 0)
      && macd_positive
  let rsi_cur := rsiList.getD (n - 1) none
  let rsi_gaining := fgtF rsi_cur (rsiList.getD (n - 5) none)
  let testing_support := decide (lowCur ≤ support * (1005 / 1000))
    && decide (support < closeCur)
  let entry := closeCur
  let atr := atrList.getD (n - 1) none
  let atrq := atr.getD 0
  let stop_loss := stop_loss_level entry atrq support
  let tp1 := tp1_level entry atrq resistance
  let tp2 := tp2_level entry atrq resistance
  let risk := entry - stop_loss
  let reward_tp1 := tp1 - entry
  let reward_tp2 := tp2 - entry
  let ratio_tp1 := if 0 < risk then reward_tp1 / risk else 0
  let ratio_tp2 := if 0 < risk then reward_tp2 / risk else 0
  let adx := adxList.getD (n - 1) none
  let inp : ScoreInputs :=
    { in_uptrend := in_uptrend
      ema_order := ema_order
      macd_positive := macd_positive
      macd_crossover := macd_crossover
      rsi_gaining := rsi_gaining
      testing_support := testing_support
      rsi := rsi_cur
      volume_increase := some volume_increase
      adx := adx
      ratio_tp1 := ratio_tp1 }
  { symbol := ticker
    timeframe := interval
    price := closeCur
    ema200 := ema200.getD (n - 1) 0
    ema50 := ema50.getD (n - 1) 0
    ema20 := ema20.getD (n - 1) 0
    macd := macd_line.getD (n - 1) 0
    signal_line := signal_line.getD (n - 1) 0
    rsi := rsi_cur
    support := support
    resistance := resistance
    volume_increase := volume_increase
    atr := atr
    adx := adx
    in_uptrend := in_uptrend
    ema_order := ema_order
    macd_positive := macd_positive
    macd_crossover := macd_crossover
    rsi_oversold := fltF rsi_cur (some 30)
    rsi_gaining := rsi_gaining
    testing_support := testing_support
    entry := entry
    stop_loss := stop_loss
    tp1 := tp1
    tp2 := tp2
    risk := risk
    reward_tp1 := reward_tp1
    reward_tp2 := reward_tp2
    ratio_tp1 := ratio_tp1
    ratio_tp2 := ratio_tp2
    confidence := confidence_score inp
    signal_strength := signal_strength_of (confidence_score inp)
    should_alert := should_alert inp }

/-- The stock `analyze_pair` (`stock_signal_bot.py` lines 166-169):
`if df.empty or len(df) < 30: return None`. -/
def stockAnalyze (ticker : String) (interval : String) (bars : List Bar) :
    Option SAnalysis :=
  if bars.isEmpty || bars.length < 30 then none
  else some (stockCompute ticker interval bars)

/-! ## TradeLifecycleTracker

`trade_tracker.py`.  The ledger (`self.trades`, a JSON-backed list of
dicts) is a `List Trade`; each method becomes a function from ledger to
ledger.  The transition messages appended to `updates` are formatted
strings for the reporting collaborator and carry no further state; they
are not modelled. -/

/-- Trade status strings: `"open"`, `"tp1"`, `"tp2"`, `"stopped"`
(`opened` stands for the source's `"open"`, a Lean keyword). -/
inductive Status where
  | opened
  | tp1
  | tp2
  | stopped
  deriving Repr, DecidableEq, Inhabited

/-- A ledger record with exactly the keys written by `add_trade`
(`trade_tracker.py` lines 35-49). -/
structure Trade where
  symbol : String
  timeframe : String
  entry : ℚ
  stop_loss : ℚ
  tp1 : ℚ
  tp2 : ℚ
  status : Status
  created_at : String
  last_update : String
  last_price : ℚ
  pnl_pct : ℚ
  deriving Repr, DecidableEq, Inhabited

/-- The fields of an analysis dict that `add_trade` and
`update_with_analyses` read (lines 33-46, 54-57). -/
structure TradeAnalysis where
  symbol : String
  timeframe : String
  entry : ℚ
  stop_loss : ℚ
  tp1 : ℚ
  tp2 : ℚ
  price : ℚ
  deriving Repr, DecidableEq, Inhabited

/-- The predicate of `_find_trade` (lines 26-30): same symbol, same
timeframe, and a non-terminal (`"open"` or `"tp1"`) status. -/
def activeMatch (symbol timeframe : String) (t : Trade) : Bool :=
  decide (t.symbol = symbol) && decide (t.timeframe = timeframe)
    && (decide (t.status = Status.opened) || decide (t.status = Status.tp1))

/-- Method `_find_trade`: the first ledger entry matching `activeMatch`. -/
def find_trade (trades : List Trade) (symbol timeframe : String) :
    Option Trade :=
  trades.find? (activeMatch symbol timeframe)

/-- The dict `add_trade` appends (lines 35-49): a fresh `"open"` trade
seeded from the analysis, with `last_price` the analysis price and a
zero pnl. -/
def newTrade (a : TradeAnalysis) (created_at : String) : Trade :=
  { symbol := a.symbol
    timeframe := a.timeframe
    entry := a.entry
    stop_loss := a.stop_loss
    tp1 := a.tp1
    tp2 := a.tp2
    status := Status.opened
    created_at := created_at
    last_update := created_at
    last_price := a.price
    pnl_pct := 0 }

/-- Method `add_trade(analysis, created_at)` (lines 32-49): a no-op when an
active trade for the key exists, otherwise appends a fresh `"open"`
trade seeded from the analysis. -/
def add_trade (trades : List Trade) (a : TradeAnalysis) (created_at : String) :
    List Trade :=
  match find_trade trades a.symbol a.timeframe with
  | some _ => trades
  | none => trades ++ [newTrade a created_at]

/-- The per-trade body of `update_with_analyses` (lines 57-82) applied
to the located trade: refresh `last_price`/`pnl_pct`, keep a terminal
status as is, otherwise run the stop / tp2 / tp1 checks in that order
and stamp `last_update` on a change.  (The terminal branch is
unreachable through `_find_trade`, which only returns `"open"`/`"tp1"`
trades, but it is kept as it is in the source.) -/
def updateTradeWith (t : Trade) (price : ℚ) (ts : String) : Trade :=
  let t1 := { t with last_price := price
                     pnl_pct := (price / t.entry - 1) * 100 }
  if t1.status = Status.tp2 ∨ t1.status = Status.stopped then t1
  else
    let new_status :=
      if price ≤ t1.stop_loss then Status.stopped
      else if t1.tp2 ≤ price then Status.tp2
      else if t1.tp1 ≤ price ∧ t1.status = Status.opened then Status.tp1
      else t1.status
    if new_status ≠ t1.status then
      { t1 with status := new_status, last_update := ts }
    else t1

/-- One iteration of the `update_with_analyses` loop: find the first
active trade for the key and mutate it in place (a no-op when
`_find_trade` returns `None`). -/
def updateFirst (trades : List Trade) (symbol timeframe : String)
    (price : ℚ) (ts : String) : List Trade :=
  match trades with
  | [] => []
  | t :: rest =>
      if activeMatch symbol timeframe t then updateTradeWith t price ts :: rest
      else t :: updateFirst rest symbol timeframe price ts

/-- Method `update_with_analyses(analyses, ts)` (lines 51-83): fold the
per-analysis update over the ledger. -/
def update_with_analyses (trades : List Trade) (analyses : List TradeAnalysis)
    (ts : String) : List Trade :=
  analyses.foldl (fun tr a => updateFirst tr a.symbol a.timeframe a.price ts)
    trades

/-! ## Ledger persistence

`save`/`load` (`trade_tracker.py` lines 16-24) serialize the whole
ledger as a JSON array of objects via `json.dumps`/`json.loads`.  The
JSON document is modelled as a small value tree; `save` is the encoder
the `json` module derives from the trade dicts, and the decoder below
is its inverse reading the same keys (a corrupt document — anything
that is not an array of well-formed trade objects — is the
`except`-branch case in which the source restarts from an empty
ledger). -/

inductive JValue where
  | jstr (s : String)
  | jnum (q : ℚ)
  | jarr (xs : List JValue)
  | jobj (fields : List (String × JValue))
  deriving Repr, Inhabited

def statusToString : Status → String
  | .opened => "open"
  | .tp1 => "tp1"
  | .tp2 => "tp2"
  | .stopped => "stopped"

def statusFromString : String → Option Status
  | "open" => some .opened
  | "tp1" => some .tp1
  | "tp2" => some .tp2
  | "stopped" => some .stopped
  | _ => none

def tradeToJson (t : Trade) : JValue :=
  .jobj [("symbol", .jstr t.symbol),
         ("timeframe", .jstr t.timeframe),
         ("entry", .jnum t.entry),
         ("stop_loss", .jnum t.stop_loss),
         ("tp1", .jnum t.tp1),
         ("tp2", .jnum t.tp2),
         ("status", .jstr (statusToString t.status)),
         ("created_at", .jstr t.created_at),
         ("last_update", .jstr t.last_update),
         ("last_price", .jnum t.last_price),
         ("pnl_pct", .jnum t.pnl_pct)]

def jlookup (fields : List (String × JValue)) (k : String) : Option JValue :=
  (fields.find? fun p => p.1 == k).map Prod.snd

def asStr : JValue → Option String
  | .jstr s => some s
  | _ => none

def asNum : JValue → Option ℚ
  | .jnum q => some q
  | _ => none

def tradeFromJson : JValue → Option Trade
  | .jobj fs => do
      let symbol ← jlookup fs "symbol" >>= asStr
      let timeframe ← jlookup fs "timeframe" >>= asStr
      let entry ← jlookup fs "entry" >>= asNum
      let stop_loss ← jlookup fs "stop_loss" >>= asNum
      let tp1 ← jlookup fs "tp1" >>= asNum
      let tp2 ← jlookup fs "tp2" >>= asNum
      let status ← jlookup fs "status" >>= asStr >>= statusFromString
      let created_at ← jlookup fs "created_at" >>= asStr
      let last_update ← jlookup fs "last_update" >>= asStr
      let last_price ← jlookup fs "last_price" >>= asNum
      let pnl_pct ← jlookup fs "pnl_pct" >>= asNum
      pure { symbol := symbol
             timeframe := timeframe
             entry := entry
             stop_loss := stop_loss
             tp1 := tp1
             tp2 := tp2
             status := status
             created_at := created_at
             last_update := last_update
             last_price := last_price
             pnl_pct := pnl_pct }
  | _ => none

/-- Method `save()`: the ledger as a JSON array of trade objects. -/
def saveLedger (trades : List Trade) : JValue :=
  .jarr (trades.map tradeToJson)

/-- The decoding direction of `load()`: read back an array of trade
objects; `none` is the unrecoverable-document case. -/
def loadLedger : JValue → Option (List Trade)
  | .jarr xs => xs.mapM tradeFromJson
  | _ => none

/-- Number of ledger entries for a key in a non-terminal (`"open"` or
`"tp1"`) status — the quantity the one-active-trade-per-key invariant
bounds. -/
def countActive (trades : List Trade) (symbol timeframe : String) : Nat :=
  trades.countP (activeMatch symbol timeframe)

/-- Number of ledger entries for a key, regardless of status. -/
def countKey (trades : List Trade) (symbol timeframe : String) : Nat :=
  trades.countP fun t =>
    decide (t.symbol = symbol) && decide (t.timeframe = timeframe)

/-! ## Concrete instances used by the theorems below -/

/-- The spec's lifecycle scenario trade: entry 100, stop 90, targets
110/120, freshly opened. -/
def tC2 : Trade :=
  { symbol := "X"
    timeframe := "1d"
    entry := 100
    stop_loss := 90
    tp1 := 110
    tp2 := 120
    status := Status.opened
    created_at := "t0"
    last_update := "t0"
    last_price := 100
    pnl_pct := 0 }

/-- A matching analysis observing price 111. -/
def aC2hit : TradeAnalysis :=
  { symbol := "X"
    timeframe := "1d"
    entry := 100
    stop_loss := 90
    tp1 := 110
    tp2 := 120
    price := 111 }

/-- A matching analysis observing price 85. -/
def aC2stop : TradeAnalysis := { aC2hit with price := 85 }

/-- A trade already stopped out at 85 (entry 100). -/
def tC3s : Trade :=
  { symbol := "Y"
    timeframe := "1d"
    entry := 100
    stop_loss := 90
    tp1 := 110
    tp2 := 120
    status := Status.stopped
    created_at := "t0"
    last_update := "t0"
    last_price := 85
    pnl_pct := -15 }

/-- A matching analysis observing price 130 for the stopped trade's
key. -/
def aC3p : TradeAnalysis :=
  { symbol := "Y"
    timeframe := "1d"
    entry := 100
    stop_loss := 90
    tp1 := 110
    tp2 := 120
    price := 130 }

/-- The alerting analysis used to exercise `add_trade`. -/
def aC5 : TradeAnalysis :=
  { symbol := "Z"
    timeframe := "4h"
    entry := 50
    stop_loss := 45
    tp1 := 55
    tp2 := 60
    price := 50 }

/-- Witness for the alert gate: a concrete frame through the crypto and
stock pipelines and a concrete pair of scoring inputs. -/
def barsW : List Bar :=
  (List.range 30).map fun i =>
    { openPrice := i, high := (i : ℚ) + 2, low := i, close := (i : ℚ) + 1,
      volume := 1 }

def sW : ScoreInputs :=
  { in_uptrend := true, ema_order := true, macd_positive := true,
    macd_crossover := false, rsi_gaining := false, testing_support := false,
    rsi := some 50, volume_increase := some 0, adx := some 20,
    ratio_tp1 := 1 }

/-- A ten-bar frame (shorter than the 30-bar minimum the spec
describes) with ordinary ascending prices. -/
def bars10C6 : List Bar :=
  [{ openPrice := 10, high := 12, low := 9, close := 11, volume := 5 },
   { openPrice := 11, high := 13, low := 10, close := 12, volume := 5 },
   { openPrice := 12, high := 14, low := 11, close := 13, volume := 5 },
   { openPrice := 13, high := 15, low := 12, close := 14, volume := 5 },
   { openPrice := 14, high := 16, low := 13, close := 15, volume := 5 },
   { openPrice := 15, high := 17, low := 14, close := 16, volume := 5 },
   { openPrice := 16, high := 18, low := 15, close := 17, volume := 5 },
   { openPrice := 17, high := 19, low := 16, close := 18, volume := 5 },
   { openPrice := 18, high := 20, low := 17, close := 19, volume := 5 },
   { openPrice := 19, high := 21, low := 18, close := 20, volume := 5 }]

/-- The four-bar frame of the support-fallback counterexample: the
trailing three-bar window has monotone lows `[8, 9, 10]` (no pivot
low) and flat highs (no pivot high), while the whole frame starts with
an older low of 1. -/
def barsC7 : List Bar :=
  [{ openPrice := 0, high := 20, low := 1, close := 10, volume := 1 },
   { openPrice := 0, high := 20, low := 8, close := 10, volume := 1 },
   { openPrice := 0, high := 20, low := 9, close := 10, volume := 1 },
   { openPrice := 0, high := 20, low := 10, close := 10, volume := 1 }]

/-! ## Theorems -/

/-- The `should_alert` decision unpacked into its three conditions. -/
theorem should_alert_iff (s : ScoreInputs) :
    should_alert s = true ↔
      70 ≤ confidence_score s ∧ 1 ≤ s.ratio_tp1 ∧ s.in_uptrend = true := by
  simp only [should_alert, Bool.and_eq_true, decide_eq_true_eq]
  tauto

/-- C1: in both `analyze_pair` variants, `should_alert` is true exactly
when `confidence ≥ 70`, `ratio_tp1 ≥ 1` and `in_uptrend` all hold, and
the decision depends on no other input of the scoring block: two
scoring inputs agreeing on those three values alert identically. -/
theorem alert_gate_iff :
    (∀ symbol interval bars a, cryptoAnalyze symbol interval bars = some a →
      (a.should_alert = true ↔
        70 ≤ a.confidence ∧ 1 ≤ a.ratio_tp1 ∧ a.in_uptrend = true)) ∧
    (∀ ticker interval bars a, stockAnalyze ticker interval bars = some a →
      (a.should_alert = true ↔
        70 ≤ a.confidence ∧ 1 ≤ a.ratio_tp1 ∧ a.in_uptrend = true)) ∧
    (∀ s t : ScoreInputs, confidence_score s = confidence_score t →
      s.ratio_tp1 = t.ratio_tp1 → s.in_uptrend = t.in_uptrend →
      should_alert s = should_alert t) := by
  refine ⟨?_, ?_, ?_⟩
  · intro symbol interval bars a h
    rw [cryptoAnalyze] at h
    split at h
    · exact absurd h (by simp)
    · obtain rfl : cryptoCompute symbol interval bars = a := by
        simpa using h
      exact should_alert_iff _
  · intro ticker interval bars a h
    rw [stockAnalyze] at h
    split at h
    · exact absurd h (by simp)
    · obtain rfl : stockCompute ticker interval bars = a := by
        simpa using h
      exact should_alert_iff _
  · intro s t hc hr hu
    simp only [should_alert, hc, hr, hu]

theorem alert_gate_iff_witness :
    ((cryptoCompute "BTCUSDT" "1d" barsW).should_alert = true ↔
      70 ≤ (cryptoCompute "BTCUSDT" "1d" barsW).confidence ∧
        1 ≤ (cryptoCompute "BTCUSDT" "1d" barsW).ratio_tp1 ∧
        (cryptoCompute "BTCUSDT" "1d" barsW).in_uptrend = true) ∧
    ((stockCompute "AAPL" "1d" barsW).should_alert = true ↔
      70 ≤ (stockCompute "AAPL" "1d" barsW).confidence ∧
        1 ≤ (stockCompute "AAPL" "1d" barsW).ratio_tp1 ∧
        (stockCompute "AAPL" "1d" barsW).in_uptrend = true) ∧
    should_alert sW = should_alert sW :=
  ⟨alert_gate_iff.1 "BTCUSDT" "1d" barsW _ rfl,
   alert_gate_iff.2.1 "AAPL" "1d" barsW _ rfl,
   alert_gate_iff.2.2 sW sW rfl rfl rfl⟩

/-- C4: whenever entry, support and resistance are positive and the ATR
is a finite non-negative number, the stop sits strictly below the entry
and the first target strictly below the second, through both the
ATR/support branches and the `entry*0.98` fallback. -/
theorem risk_reward_ordering (entry atr support resistance : ℚ)
    (hentry : 0 < entry) (hsupport : 0 < support) (hres : 0 < resistance)
    (hatr : 0 ≤ atr) :
    stop_loss_level entry atr support < entry ∧
      tp1_level entry atr resistance < tp2_level entry atr resistance := by
  constructor
  · rw [stop_loss_level]
    split
    · linarith
    · next h =>
      push_neg at h
      exact h.2
  · rw [tp1_level, tp2_level]
    split
    · linarith
    · linarith

theorem risk_reward_ordering_witness :
    stop_loss_level 100 2 95 < 100 ∧ tp1_level 100 2 120 < tp2_level 100 2 120 :=
  risk_reward_ordering 100 2 95 120 (by norm_num) (by norm_num) (by norm_num)
    (by norm_num)

/-- C8: the spec's scoring scenario — uptrend, aligned EMAs, a fresh
MACD cross (hence MACD above signal), healthy rising RSI of 45, price
testing support, volume +40% vs the average, ADX 30 and
`ratio_tp1 = 1.5` — scores 20+15+15+10+10+10+10+5+10+5 = 110, is
labelled FORTE and alerts. -/
theorem scoring_scenario_110 :
    confidence_score
        { in_uptrend := true, ema_order := true, macd_positive := true,
          macd_crossover := true, rsi_gaining := true, testing_support := true,
          rsi := some 45, volume_increase := some 40, adx := some 30,
          ratio_tp1 := 3 / 2 } = 110 ∧
      signal_strength_of
        (confidence_score
          { in_uptrend := true, ema_order := true, macd_positive := true,
            macd_crossover := true, rsi_gaining := true, testing_support := true,
            rsi := some 45, volume_increase := some 40, adx := some 30,
            ratio_tp1 := 3 / 2 }) = Strength.FORTE ∧
      should_alert
        { in_uptrend := true, ema_order := true, macd_positive := true,
          macd_crossover := true, rsi_gaining := true, testing_support := true,
          rsi := some 45, volume_increase := some 40, adx := some 30,
          ratio_tp1 := 3 / 2 } = true := by
  have h : confidence_score
      { in_uptrend := true, ema_order := true, macd_positive := true,
        macd_crossover := true, rsi_gaining := true, testing_support := true,
        rsi := some 45, volume_increase := some 40, adx := some 30,
        ratio_tp1 := 3 / 2 } = 110 := by
    norm_num [confidence_score, rsiHealthy, fltF, fgtF, fgeF]
  refine ⟨h, ?_, ?_⟩
  · rw [h]
    decide
  · simp only [should_alert, h]
    norm_num

/-- C10: the confidence score always lies in `[-10, 110]`, and both end
points are attained — the volume and ADX −5 penalties each exclude
their +5/+10 bonus, so the maximum is 110, not 115. -/
theorem confidence_score_bounds :
    (∀ s : ScoreInputs, -10 ≤ confidence_score s ∧ confidence_score s ≤ 110) ∧
    (∃ s : ScoreInputs, confidence_score s = 110) ∧
    (∃ s : ScoreInputs, confidence_score s = -10) := by
  refine ⟨fun s => ?_, ?_, ?_⟩
  · have h1 : (0 : ℤ) ≤ (if s.in_uptrend then (20 : ℤ) else 0) ∧
        (if s.in_uptrend then (20 : ℤ) else 0) ≤ 20 := by split <;> omega
    have h2 : (0 : ℤ) ≤ (if s.ema_order then (15 : ℤ) else 0) ∧
        (if s.ema_order then (15 : ℤ) else 0) ≤ 15 := by split <;> omega
    have h3 : (0 : ℤ) ≤ (if s.macd_positive then (15 : ℤ) else 0) ∧
        (if s.macd_positive then (15 : ℤ) else 0) ≤ 15 := by split <;> omega
    have h4 : (0 : ℤ) ≤ (if s.macd_crossover then (10 : ℤ) else 0) ∧
        (if s.macd_crossover then (10 : ℤ) else 0) ≤ 10 := by split <;> omega
    have h5 : (0 : ℤ) ≤ (if rsiHealthy s.rsi then (10 : ℤ) else 0) ∧
        (if rsiHealthy s.rsi then (10 : ℤ) else 0) ≤ 10 := by split <;> omega
    have h6 : (0 : ℤ) ≤ (if s.rsi_gaining then (10 : ℤ) else 0) ∧
        (if s.rsi_gaining then (10 : ℤ) else 0) ≤ 10 := by split <;> omega
    have h7 : (0 : ℤ) ≤ (if s.testing_support then (10 : ℤ) else 0) ∧
        (if s.testing_support then (10 : ℤ) else 0) ≤ 10 := by split <;> omega
    have h8 : (0 : ℤ) ≤ (if fgtF s.volume_increase (some 30) then (5 : ℤ) else 0) ∧
        (if fgtF s.volume_increase (some 30) then (5 : ℤ) else 0) ≤ 5 := by
      split <;> omega
    have h9 : (-5 : ℤ) ≤ (if fltF s.volume_increase (some (-30)) then (-5 : ℤ) else 0) ∧
        (if fltF s.volume_increase (some (-30)) then (-5 : ℤ) else 0) ≤ 0 := by
      split <;> omega
    have h10 : (-5 : ℤ) ≤ (if fgeF s.adx (some 25) then (10 : ℤ)
          else if fltF s.adx (some 15) then -5 else 0) ∧
        (if fgeF s.adx (some 25) then (10 : ℤ)
          else if fltF s.adx (some 15) then -5 else 0) ≤ 10 := by
      split
      · omega
      · split <;> omega
    have h11 : (0 : ℤ) ≤ (if (1 : ℚ) ≤ s.ratio_tp1 then (5 : ℤ) else 0) ∧
        (if (1 : ℚ) ≤ s.ratio_tp1 then (5 : ℤ) else 0) ≤ 5 := by split <;> omega
    simp only [confidence_score]
    omega
  · exact Exists.intro
      { in_uptrend := true
        ema_order := true
        macd_positive := true
        macd_crossover := true
        rsi_gaining := true
        testing_support := true
        rsi := some 45
        volume_increase := some 40
        adx := some 30
        ratio_tp1 := 2 } (by decide)
  · exact Exists.intro
      { in_uptrend := false
        ema_order := false
        macd_positive := false
        macd_crossover := false
        rsi_gaining := false
        testing_support := false
        rsi := none
        volume_increase := some (-40)
        adx := some 5
        ratio_tp1 := 0 } (by decide)

/-- C6 counterexample: the crypto `analyze_pair` does NOT return the
unavailable result on a series of fewer than 30 bars — on this ten-bar
frame it produces a full analysis, because its only guard is
`df_1d.empty`. -/
theorem crypto_short_series_counterexample :
    bars10C6.length < 30 ∧
      (cryptoAnalyze "BTCUSDT" "1d" bars10C6).isSome = true :=
  ⟨by decide, rfl⟩

/-- C6 (amended): only the stock `analyze_pair` enforces the 30-bar
minimum; the crypto variant rejects just the empty frame and analyzes
any frame its row indexing can address (length ≥ 5). -/
theorem short_series_guards :
    (∀ ticker interval bars, bars.length < 30 →
      stockAnalyze ticker interval bars = none) ∧
    (∀ symbol interval bars, 5 ≤ bars.length →
      (cryptoAnalyze symbol interval bars).isSome = true) ∧
    (∀ symbol interval, cryptoAnalyze symbol interval ([] : List Bar) = none) := by
  refine ⟨?_, ?_, fun s i => rfl⟩
  · intro t i bars h
    simp [stockAnalyze, h]
  · intro s i bars h
    rcases bars with _ | ⟨b, bs⟩
    · simp at h
    · simp [cryptoAnalyze]

theorem short_series_guards_witness :
    stockAnalyze "AAPL" "1d" bars10C6 = none ∧
      (cryptoAnalyze "ETHUSDT" "1d" bars10C6).isSome = true ∧
      cryptoAnalyze "ETHUSDT" "1d" ([] : List Bar) = none :=
  ⟨short_series_guards.1 "AAPL" "1d" bars10C6 (by decide),
   short_series_guards.2.1 "ETHUSDT" "1d" bars10C6 (by decide),
   short_series_guards.2.2 "ETHUSDT" "1d"⟩

theorem listMin_cons (x : ℚ) (xs : List ℚ) :
    listMin (x :: xs) =
      match listMin xs with
      | none => some x
      | some m => some (min x m) := rfl

theorem listMax_cons (x : ℚ) (xs : List ℚ) :
    listMax (x :: xs) =
      match listMax xs with
      | none => some x
      | some m => some (max x m) := rfl

/-- Every `listMin` of a nonempty list is attained and is a lower
bound. -/
theorem listMin_eq_some (l : List ℚ) (h : l ≠ []) :
    ∃ m, listMin l = some m ∧ m ∈ l ∧ ∀ x ∈ l, m ≤ x := by
  induction l with
  | nil => exact absurd rfl h
  | cons x xs ih =>
    rcases hxs : xs with _ | ⟨y, ys⟩
    · exact ⟨x, by simp [listMin], by simp, by simp⟩
    · subst hxs
      obtain ⟨m, hm, hmem, hle⟩ := ih (by simp)
      refine ⟨min x m, by rw [listMin_cons, hm], ?_, ?_⟩
      · rcases le_total x m with hx | hx
        · simp [min_eq_left hx]
        · rw [min_eq_right hx]
          exact List.mem_cons_of_mem _ hmem
      · intro z hz
        rcases List.mem_cons.mp hz with rfl | hz
        · exact min_le_left _ _
        · exact le_trans (min_le_right _ _) (hle z hz)

/-- Every `listMax` of a nonempty list is attained and is an upper
bound. -/
theorem listMax_eq_some (l : List ℚ) (h : l ≠ []) :
    ∃ m, listMax l = some m ∧ m ∈ l ∧ ∀ x ∈ l, x ≤ m := by
  induction l with
  | nil => exact absurd rfl h
  | cons x xs ih =>
    rcases hxs : xs with _ | ⟨y, ys⟩
    · exact ⟨x, by simp [listMax], by simp, by simp⟩
    · subst hxs
      obtain ⟨m, hm, hmem, hle⟩ := ih (by simp)
      refine ⟨max x m, by rw [listMax_cons, hm], ?_, ?_⟩
      · rcases le_total x m with hx | hx
        · rw [max_eq_right hx]
          exact List.mem_cons_of_mem _ hmem
        · simp [max_eq_left hx]
      · intro z hz
        rcases List.mem_cons.mp hz with rfl | hz
        · exact le_max_left _ _
        · exact le_trans (hle z hz) (le_max_right _ _)

/-- C7 counterexample: with no pivot low in the trailing window,
`find_support_resistance` falls back to the minimum low of the WHOLE
frame (here 1), not the window's minimum low (here 8). -/
theorem support_window_fallback_counterexample :
    pivotLows (barsC7.drop (barsC7.length - 3)) = [] ∧
      listMin ((barsC7.drop (barsC7.length - 3)).map Bar.low) = some 8 ∧
      (find_support_resistance barsC7 3).1 = 1 ∧ (1 : ℚ) ≠ 8 := by
  refine ⟨by decide, by decide, by decide, by decide⟩

/-- C7 (amended): when the trailing window holds no pivot low, the
returned support is the minimum low of the entire frame (and
symmetrically the resistance falls back to the frame-wide maximum
high) — the fallback extrema range over the whole series, not the
window. -/
theorem support_fallback_whole_frame :
    (∀ df window, pivotLows (df.drop (df.length - window)) = [] → df ≠ [] →
      (find_support_resistance df window).1 ∈ df.map Bar.low ∧
        ∀ x ∈ df.map Bar.low, (find_support_resistance df window).1 ≤ x) ∧
    (∀ df window, pivotHighs (df.drop (df.length - window)) = [] → df ≠ [] →
      (find_support_resistance df window).2 ∈ df.map Bar.high ∧
        ∀ x ∈ df.map Bar.high, x ≤ (find_support_resistance df window).2) := by
  constructor
  · intro df window hpiv hne
    obtain ⟨m, hm, hmem, hle⟩ :=
      listMin_eq_some (df.map Bar.low) (by simpa using hne)
    have : (find_support_resistance df window).1 = m := by
      simp [find_support_resistance, hpiv, listMax, hm]
    rw [this]
    exact ⟨hmem, hle⟩
  · intro df window hpiv hne
    obtain ⟨m, hm, hmem, hle⟩ :=
      listMax_eq_some (df.map Bar.high) (by simpa using hne)
    have : (find_support_resistance df window).2 = m := by
      simp [find_support_resistance, hpiv, listMin, hm]
    rw [this]
    exact ⟨hmem, hle⟩

theorem support_fallback_whole_frame_witness :
    ((find_support_resistance barsC7 3).1 ∈ barsC7.map Bar.low ∧
      ∀ x ∈ barsC7.map Bar.low, (find_support_resistance barsC7 3).1 ≤ x) ∧
    ((find_support_resistance barsC7 3).2 ∈ barsC7.map Bar.high ∧
      ∀ x ∈ barsC7.map Bar.high, x ≤ (find_support_resistance barsC7 3).2) :=
  ⟨support_fallback_whole_frame.1 barsC7 3 (by decide) (by decide),
   support_fallback_whole_frame.2 barsC7 3 (by decide) (by decide)⟩

/-- C2: for a located non-terminal trade the update runs stop, tp2 and
tp1 checks in that priority order (the stop fires even from `tp1`,
pre-empting tp2), always refreshing `last_price` and `pnl_pct` from the
observed price; on the spec scenario (entry 100, stop 90, tp1 110,
tp2 120, open) price 111 yields `tp1` with pnl +11 and the subsequent
price 85 yields `stopped` with pnl −15. -/
theorem update_transition_priority :
    (∀ (t : Trade) (price : ℚ) (ts : String),
      t.status = Status.opened ∨ t.status = Status.tp1 →
      (updateTradeWith t price ts).status =
        (if price ≤ t.stop_loss then Status.stopped
         else if t.tp2 ≤ price then Status.tp2
         else if t.tp1 ≤ price ∧ t.status = Status.opened then Status.tp1
         else t.status) ∧
      (updateTradeWith t price ts).last_price = price ∧
      (updateTradeWith t price ts).pnl_pct = (price / t.entry - 1) * 100) ∧
    update_with_analyses [tC2] [aC2hit] "t1" =
      [{ tC2 with status := Status.tp1, last_update := "t1",
                  last_price := 111, pnl_pct := 11 }] ∧
    update_with_analyses (update_with_analyses [tC2] [aC2hit] "t1")
        [aC2stop] "t2" =
      [{ tC2 with status := Status.stopped, last_update := "t2",
                  last_price := 85, pnl_pct := -15 }] := by
  refine ⟨?_, ?_, ?_⟩
  · intro t price ts h
    rcases h with h | h <;>
      simp only [updateTradeWith, h] <;>
      split_ifs <;> simp_all
  · norm_num [update_with_analyses, updateFirst, activeMatch,
      updateTradeWith, tC2, aC2hit]
    simp
  · norm_num [update_with_analyses, updateFirst, activeMatch,
      updateTradeWith, tC2, aC2hit, aC2stop]
    simp
    norm_num
    decide

theorem update_transition_priority_witness :
    (updateTradeWith tC2 111 "t1").last_price = 111 :=
  (update_transition_priority.1 tC2 111 "t1" (Or.inl rfl)).2.1

/-- The located-trade update never touches the ledger positions whose
trade is in a terminal status. -/
theorem updateFirst_terminal_fixed (sym tf : String) (price : ℚ) (ts : String) :
    ∀ (l : List Trade) (i : Nat) (t : Trade), l[i]? = some t →
      t.status = Status.tp2 ∨ t.status = Status.stopped →
      (updateFirst l sym tf price ts)[i]? = some t := by
  intro l
  induction l with
  | nil => intro i t h _; simp at h
  | cons hd tl ih =>
    intro i t hget hterm
    rw [updateFirst]
    by_cases hm : activeMatch sym tf hd
    · rw [if_pos hm]
      cases i with
      | zero =>
        simp only [List.getElem?_cons_zero, Option.some.injEq] at hget
        subst hget
        exfalso
        rcases hterm with h | h <;> simp [activeMatch, h] at hm
      | succ n =>
        simp only [List.getElem?_cons_succ] at hget ⊢
        exact hget
    · rw [if_neg hm]
      cases i with
      | zero => simpa using hget
      | succ n =>
        simp only [List.getElem?_cons_succ] at hget ⊢
        exact ih n t hget hterm

/-- C3 (amended): `update_with_analyses` never touches a terminal
(`tp2` or `stopped`) trade at all — `_find_trade` only locates
`open`/`tp1` trades, so terminal trades keep their old `last_price`
and `pnl_pct` as well as their status. -/
theorem terminal_trades_untouched :
    ∀ (analyses : List TradeAnalysis) (trades : List Trade) (ts : String)
      (i : Nat) (t : Trade), trades[i]? = some t →
      t.status = Status.tp2 ∨ t.status = Status.stopped →
      (update_with_analyses trades analyses ts)[i]? = some t := by
  intro analyses
  induction analyses with
  | nil =>
    intro trades ts i t h _
    simpa [update_with_analyses] using h
  | cons a as ih =>
    intro trades ts i t h ht
    have h1 := updateFirst_terminal_fixed a.symbol a.timeframe a.price ts
      trades i t h ht
    have h2 := ih (updateFirst trades a.symbol a.timeframe a.price ts)
      ts i t h1 ht
    simpa [update_with_analyses] using h2

theorem terminal_trades_untouched_witness :
    (update_with_analyses [tC3s] [aC3p] "t9")[0]? = some tC3s :=
  terminal_trades_untouched [aC3p] [tC3s] "t9" 0 tC3s rfl (Or.inr rfl)

/-- C3 counterexample: a stopped trade (entry 100, stopped at 85,
pnl −15) observed again at price 130 is NOT refreshed: the ledger is
unchanged, `last_price` stays 85 (not 130) and `pnl_pct` stays −15
(not +30). -/
theorem terminal_update_counterexample :
    update_with_analyses [tC3s] [aC3p] "t9" = [tC3s] ∧
      (update_with_analyses [tC3s] [aC3p] "t9").map Trade.last_price = [85] ∧
      ¬(update_with_analyses [tC3s] [aC3p] "t9").map Trade.last_price = [130] ∧
      ¬(update_with_analyses [tC3s] [aC3p] "t9").map Trade.pnl_pct = [30] := by
  refine ⟨?_, ?_, ?_, ?_⟩ <;> decide

theorem updateTradeWith_symbol (t : Trade) (price : ℚ) (ts : String) :
    (updateTradeWith t price ts).symbol = t.symbol := by
  simp only [updateTradeWith]
  split_ifs <;> rfl

theorem updateTradeWith_timeframe (t : Trade) (price : ℚ) (ts : String) :
    (updateTradeWith t price ts).timeframe = t.timeframe := by
  simp only [updateTradeWith]
  split_ifs <;> rfl

/-- An updated trade can be active (`open`/`tp1`) only if the original
was: the transition function never revives a trade. -/
theorem activeMatch_updateTradeWith (sym tf : String) (t : Trade)
    (price : ℚ) (ts : String)
    (h : activeMatch sym tf (updateTradeWith t price ts) = true) :
    activeMatch sym tf t = true := by
  simp only [activeMatch, Bool.and_eq_true, Bool.or_eq_true,
    decide_eq_true_eq] at h ⊢
  obtain ⟨⟨hs, ht⟩, hst⟩ := h
  rw [updateTradeWith_symbol] at hs
  rw [updateTradeWith_timeframe] at ht
  refine ⟨⟨hs, ht⟩, ?_⟩
  revert hst
  simp only [updateTradeWith]
  split_ifs <;> intro hst <;> simp_all

/-- One located-trade update cannot increase the number of active
trades for any key. -/
theorem countActive_updateFirst_le (sym tf k1 k2 : String) (price : ℚ)
    (ts : String) :
    ∀ l : List Trade,
      countActive (updateFirst l k1 k2 price ts) sym tf ≤
        countActive l sym tf := by
  intro l
  induction l with
  | nil => simp [updateFirst, countActive]
  | cons hd tl ih =>
    rw [updateFirst]
    by_cases hm : activeMatch k1 k2 hd
    · rw [if_pos hm]
      simp only [countActive, List.countP_cons]
      by_cases hp : activeMatch sym tf (updateTradeWith hd price ts) = true
      · have h2 := activeMatch_updateTradeWith sym tf hd price ts hp
        rw [if_pos hp, if_pos h2]
      · rw [if_neg hp]
        omega
    · rw [if_neg hm]
      simp only [countActive, List.countP_cons] at ih ⊢
      omega

/-- A whole `update_with_analyses` run cannot increase the number of
active trades for any key. -/
theorem countActive_update_le (sym tf : String) :
    ∀ (analyses : List TradeAnalysis) (l : List Trade) (ts : String),
      countActive (update_with_analyses l analyses ts) sym tf ≤
        countActive l sym tf := by
  intro analyses
  induction analyses with
  | nil => intro l ts; simp [update_with_analyses]
  | cons a as ih =>
    intro l ts
    have h1 := countActive_updateFirst_le sym tf a.symbol a.timeframe
      a.price ts l
    have h2 := ih (updateFirst l a.symbol a.timeframe a.price ts) ts
    calc countActive (update_with_analyses l (a :: as) ts) sym tf
        = countActive (update_with_analyses
            (updateFirst l a.symbol a.timeframe a.price ts) as ts) sym tf := by
          simp [update_with_analyses]
      _ ≤ _ := le_trans h2 h1

/-- The freshly appended trade matches its own key as an active
trade. -/
theorem activeMatch_newTrade (a : TradeAnalysis) (ts : String) :
    activeMatch a.symbol a.timeframe (newTrade a ts) = true := by
  simp [activeMatch, newTrade]

/-- C5: the at-most-one-active-trade-per-key ledger invariant is
preserved by `add_trade` and by `update_with_analyses`, a second
`add_trade` for the same key while the first trade is still open is a
no-op, and two successive `add_trade` calls on an empty ledger leave
exactly one trade for the key. -/
theorem ledger_active_unique :
    (∀ (l : List Trade) (a : TradeAnalysis) (ts ts' : String),
      add_trade (add_trade l a ts) a ts' = add_trade l a ts) ∧
    (∀ (l : List Trade) (a : TradeAnalysis) (ts sym tf : String),
      countActive l sym tf ≤ 1 → countActive (add_trade l a ts) sym tf ≤ 1) ∧
    (∀ (l : List Trade) (analyses : List TradeAnalysis) (ts sym tf : String),
      countActive l sym tf ≤ 1 →
      countActive (update_with_analyses l analyses ts) sym tf ≤ 1) ∧
    (∀ (a : TradeAnalysis) (ts ts' : String),
      countKey (add_trade (add_trade ([] : List Trade) a ts) a ts')
        a.symbol a.timeframe = 1) := by
  refine ⟨?_, ?_, ?_, ?_⟩
  · intro l a ts ts'
    rcases hf : find_trade l a.symbol a.timeframe with _ | x
    · simp only [add_trade, hf]
      have h1 : find_trade (l ++ [newTrade a ts]) a.symbol a.timeframe
          = some (newTrade a ts) := by
        rw [find_trade, List.find?_append]
        rw [find_trade] at hf
        rw [hf]
        simp [activeMatch_newTrade]
      simp [h1]
    · simp [add_trade, hf]
  · intro l a ts sym tf h
    rcases hf : find_trade l a.symbol a.timeframe with _ | x
    · simp only [add_trade, hf]
      rw [countActive, List.countP_append]
      by_cases hp : activeMatch sym tf (newTrade a ts) = true
      · have hkey : a.symbol = sym ∧ a.timeframe = tf := by
          simp only [activeMatch, newTrade, Bool.and_eq_true,
            decide_eq_true_eq] at hp
          exact ⟨hp.1.1, hp.1.2⟩
        obtain ⟨hs, ht⟩ := hkey
        subst hs
        subst ht
        have h0 : List.countP (activeMatch a.symbol a.timeframe) l = 0 := by
          rw [List.countP_eq_zero]
          intro x hx
          rw [find_trade] at hf
          exact List.find?_eq_none.mp hf x hx
        rw [h0]
        simp [hp]
      · rw [countActive] at h
        simp [hp]
        exact h
    · simp only [add_trade, hf]
      exact h
  · intro l analyses ts sym tf h
    exact le_trans (countActive_update_le sym tf analyses l ts) h
  · intro a ts ts'
    have h1 : find_trade ([] : List Trade) a.symbol a.timeframe = none := rfl
    simp only [add_trade, h1, List.nil_append]
    have h2 : find_trade [newTrade a ts] a.symbol a.timeframe
        = some (newTrade a ts) := by
      rw [find_trade]
      simp [activeMatch_newTrade]
    simp only [h2]
    simp [countKey, newTrade]

theorem ledger_active_unique_witness :
    add_trade (add_trade ([] : List Trade) aC5 "t0") aC5 "t1" =
        add_trade ([] : List Trade) aC5 "t0" ∧
      countActive (add_trade ([] : List Trade) aC5 "t0") "Z" "4h" ≤ 1 ∧
      countActive (update_with_analyses (add_trade ([] : List Trade) aC5 "t0")
          [aC5] "t1") "Z" "4h" ≤ 1 ∧
      countKey (add_trade (add_trade ([] : List Trade) aC5 "t0") aC5 "t1")
        aC5.symbol aC5.timeframe = 1 :=
  ⟨ledger_active_unique.1 [] aC5 "t0" "t1",
   ledger_active_unique.2.1 [] aC5 "t0" "Z" "4h" (by decide),
   ledger_active_unique.2.2.1 (add_trade [] aC5 "t0") [aC5] "t1" "Z" "4h"
     (by decide),
   ledger_active_unique.2.2.2 aC5 "t0" "t1"⟩

theorem statusFromString_statusToString (s : Status) :
    statusFromString (statusToString s) = some s := by
  cases s <;> rfl

/-- Decoding an encoded trade object restores the trade exactly. -/
theorem tradeFromJson_tradeToJson (t : Trade) :
    tradeFromJson (tradeToJson t) = some t := by
  obtain ⟨sym, tf, e, sl, p1, p2, st, ca, lu, lp, pp⟩ := t
  cases st <;> rfl

/-- C9: serializing the ledger and reading it back restores every
trade record exactly (save followed by load is the identity). -/
theorem ledger_roundtrip (trades : List Trade) :
    loadLedger (saveLedger trades) = some trades := by
  induction trades with
  | nil => rfl
  | cons t ts ih =>
    simp only [saveLedger, loadLedger, List.map_cons, List.mapM_cons] at ih ⊢
    rw [tradeFromJson_tradeToJson]
    rw [ih]
    rfl

end StockSignals
